import Mathlib

/-!
Formal model of `check_once.py` (DtekShutdowns repository).

The file embeds, as executable Lean definitions, the change-detection and
notification core of the program: the structured outage record, the
canonical four-field payload, its JSON serialization (mirroring
`json.dumps(..., ensure_ascii=False, sort_keys=True)`), a full SHA-256
implementation over natural-number bytes (mirroring
`hashlib.sha256(s.encode("utf-8")).hexdigest()`), Python truthiness
helpers, the text extractor `parse_outage_from_page_text`, the disclaimer
classifier, the message formatters, the retry wrapper `fetch_outage_info`,
and the decision core of `main()` as a pure state-transition function.
-/

namespace Dtek

/-- Structured outage record: the `OutageInfo` dataclass.  All fields apart
from the address are optional strings, exactly as in the Python source
(parsed datetimes are stored back as their `isoformat(sep=" ")` strings). -/
structure OutageInfo where
  address : String
  status_line : Option String := none
  reason : Option String := none
  start_dt : Option String := none
  restore_dt : Option String := none
  restore_raw : Option String := none
  raw_block : Option String := none
deriving DecidableEq

/-- Python truthiness of an optional string: `None` and `""` are falsy. -/
def truthyStr : Option String → Bool
  | none => false
  | some s => !s.isEmpty

/-- Python truthiness of an optional integer: `None` and `0` are falsy. -/
def truthyInt : Option Int → Bool
  | none => false
  | some n => n != 0

/-- Substring test, mirroring Python `needle in hay` (first argument is the
haystack).  An empty needle is contained in everything. -/
def containsSub : List Char → List Char → Bool
  | hay, needle =>
    needle.isPrefixOf hay ||
      match hay with
      | [] => false
      | _ :: t => containsSub t needle

/-- The two disclaimer markers (`DISCLAIMER_MARKERS`). -/
def DISCLAIMER_MARKERS : List String :=
  ["Якщо в даний момент у вас відсутнє світло",
   "Просимо перевірити інформацію через 15 хвилин"]

/-- `text.replace(" ", " ")`: map the no-break space to a plain space. -/
def replaceNbsp (text : String) : String :=
  String.mk (text.data.map (fun c => if c = '\xa0' then ' ' else c))

/-- `is_disclaimer_page`: any disclaimer marker occurs as a substring of the
text after no-break spaces are replaced. -/
def is_disclaimer_page (text : String) : Bool :=
  DISCLAIMER_MARKERS.any (fun m => containsSub (replaceNbsp text).data m.data)

/-- The canonical payload: `stable_payload(info)` builds the dict with
exactly the four fields address / start_dt / restore_dt / restore_raw, in
source order.  A Python dict is modelled as an association list. -/
def stable_payload (info : OutageInfo) : List (String × Option String) :=
  [("address", some info.address),
   ("start_dt", info.start_dt),
   ("restore_dt", info.restore_dt),
   ("restore_raw", info.restore_raw)]

/-- Lowercase hexadecimal digit character for a value below 16. -/
def hexDigitChar (n : Nat) : Char :=
  if n < 10 then Char.ofNat (48 + n) else Char.ofNat (87 + n)

/-- JSON escaping of one character, as performed by `json.dumps` with
`ensure_ascii=False`: backslash, double quote, and control characters are
escaped, everything else is emitted verbatim. -/
def escChar (c : Char) : List Char :=
  if c = '\\' then ['\\', '\\']
  else if c = '"' then ['\\', '"']
  else if c = '\x08' then ['\\', 'b']
  else if c = '\x09' then ['\\', 't']
  else if c = '\x0a' then ['\\', 'n']
  else if c = '\x0c' then ['\\', 'f']
  else if c = '\x0d' then ['\\', 'r']
  else if c.toNat < 32 then ['\\', 'u', '0', '0', hexDigitChar (c.toNat / 16), hexDigitChar (c.toNat % 16)]
  else [c]

/-- JSON escaping of a character sequence. -/
def escape : List Char → List Char
  | [] => []
  | c :: rest => escChar c ++ escape rest

/-- JSON rendering of a string value (quoted, escaped). -/
def encStr (s : String) : List Char :=
  '"' :: (escape s.data ++ ['"'])

/-- JSON rendering of an optional string value: `null` or a quoted string. -/
def encVal : Option String → List Char
  | none => ['n', 'u', 'l', 'l']
  | some s => encStr s

/-- JSON rendering of one dict entry with the `": "` key separator. -/
def encEntry (kv : String × Option String) : List Char :=
  encStr kv.1 ++ (':' :: ' ' :: encVal kv.2)

/-- Join rendered entries with the `", "` item separator. -/
def joinEntries : List (List Char) → List Char
  | [] => []
  | [e] => e
  | e :: rest => e ++ (',' :: ' ' :: joinEntries rest)

/-- Order on dict entries by key, mirroring `sort_keys=True` (Python sorts
strings by code point, as does Lean's lexicographic order on `String`). -/
def keyLe (p q : String × Option String) : Prop := p.1 ≤ q.1

instance : DecidableRel keyLe := fun p q => inferInstanceAs (Decidable (p.1 ≤ q.1))

instance : IsTotal (String × Option String) keyLe := ⟨fun p q => le_total p.1 q.1⟩

instance : IsTrans (String × Option String) keyLe := ⟨fun _ _ _ h1 h2 => le_trans h1 h2⟩

/-- `json.dumps(d, ensure_ascii=False, sort_keys=True)`: entries sorted by
key, rendered with the default `", "` and `": "` separators inside braces. -/
def serializeDict (l : List (String × Option String)) : List Char :=
  '\x7b' :: (joinEntries ((List.insertionSort keyLe l).map encEntry) ++ ['\x7d'])

/-- UTF-8 encoding of one character as a list of byte values. -/
def utf8Char (c : Char) : List Nat :=
  let n := c.toNat
  if n < 128 then [n]
  else if n < 2048 then [192 + n / 64, 128 + n % 64]
  else if n < 65536 then [224 + n / 4096, 128 + n / 64 % 64, 128 + n % 64]
  else [240 + n / 262144, 128 + n / 4096 % 64, 128 + n / 64 % 64, 128 + n % 64]

/-- UTF-8 encoding of a character sequence (`str.encode("utf-8")`). -/
def utf8Encode : List Char → List Nat
  | [] => []
  | c :: rest => utf8Char c ++ utf8Encode rest

/-- Truncation to a 32-bit word. -/
def w32 (n : Nat) : Nat := n % 4294967296

/-- Right rotation of a 32-bit word. -/
def rotr (n x : Nat) : Nat := w32 ((x >>> n) ||| (x <<< (32 - n)))

/-- SHA-256 `Ch` function. -/
def shaCh (x y z : Nat) : Nat := (x &&& y) ^^^ ((x ^^^ 4294967295) &&& z)

/-- SHA-256 `Maj` function. -/
def shaMaj (x y z : Nat) : Nat := (x &&& y) ^^^ (x &&& z) ^^^ (y &&& z)

/-- SHA-256 big sigma 0. -/
def bSig0 (x : Nat) : Nat := rotr 2 x ^^^ rotr 13 x ^^^ rotr 22 x

/-- SHA-256 big sigma 1. -/
def bSig1 (x : Nat) : Nat := rotr 6 x ^^^ rotr 11 x ^^^ rotr 25 x

/-- SHA-256 small sigma 0. -/
def sSig0 (x : Nat) : Nat := rotr 7 x ^^^ rotr 18 x ^^^ (x >>> 3)

/-- SHA-256 small sigma 1. -/
def sSig1 (x : Nat) : Nat := rotr 17 x ^^^ rotr 19 x ^^^ (x >>> 10)

/-- The 64 SHA-256 round constants. -/
def Ksha : List Nat :=
  [1116352408, 1899447441, 3049323471, 3921009573, 961987163,
   1508970993, 2453635748, 2870763221, 3624381080, 310598401,
   607225278, 1426881987, 1925078388, 2162078206, 2614888103,
   3248222580, 3835390401, 4022224774, 264347078, 604807628,
   770255983, 1249150122, 1555081692, 1996064986, 2554220882,
   2821834349, 2952996808, 3210313671, 3336571891, 3584528711,
   113926993, 338241895, 666307205, 773529912, 1294757372,
   1396182291, 1695183700, 1986661051, 2177026350, 2456956037,
   2730485921, 2820302411, 3259730800, 3345764771, 3516065817,
   3600352804, 4094571909, 275423344, 430227734, 506948616,
   659060556, 883997877, 958139571, 1322822218, 1537002063,
   1747873779, 1955562222, 2024104815, 2227730452, 2361852424,
   2428436474, 2756734187, 3204031479, 3329325298]

/-- SHA-256 working state: eight 32-bit words. -/
structure Hash8 where
  a : Nat
  b : Nat
  c : Nat
  d : Nat
  e : Nat
  f : Nat
  g : Nat
  h : Nat

/-- SHA-256 initial hash value. -/
def h0 : Hash8 :=
  ⟨1779033703, 3144134277, 1013904242, 2773480762,
   1359893119, 2600822924, 528734635, 1541459225⟩

/-- Big-endian 8-byte rendering of the bit length. -/
def be8 (n : Nat) : List Nat :=
  [n / 72057594037927936 % 256, n / 281474976710656 % 256, n / 1099511627776 % 256,
   n / 4294967296 % 256, n / 16777216 % 256, n / 65536 % 256, n / 256 % 256, n % 256]

/-- SHA-256 message padding: append `0x80`, zero bytes up to 56 mod 64, and
the 64-bit big-endian bit length. -/
def padMessage (msg : List Nat) : List Nat :=
  msg ++ 128 :: (List.replicate ((119 - msg.length % 64) % 64) 0 ++ be8 (8 * msg.length))

/-- Group a byte list into big-endian 32-bit words. -/
def toWords : List Nat → List Nat
  | b0 :: b1 :: b2 :: b3 :: rest => (b0 * 16777216 + b1 * 65536 + b2 * 256 + b3) :: toWords rest
  | _ => []

/-- Split a word list into blocks of 16 words. -/
def toBlocks16 (l : List Nat) : List (List Nat) :=
  if h : l = [] then []
  else l.take 16 :: toBlocks16 (l.drop 16)
termination_by l.length
decreasing_by
  simp [List.length_drop]
  exact List.length_pos.mpr h

/-- Extend a 16-word block to the 64-entry message schedule. -/
def schedule (block : List Nat) : List Nat :=
  (List.range 48).foldl
    (fun acc i =>
      let t := i + 16
      acc ++ [w32 (sSig1 (acc.getD (t - 2) 0) + acc.getD (t - 7) 0 +
                   sSig0 (acc.getD (t - 15) 0) + acc.getD (t - 16) 0)])
    block

/-- One SHA-256 round. -/
def round1 (k w : Nat) (s : Hash8) : Hash8 :=
  let t1 := (s.h + bSig1 s.e + shaCh s.e s.f s.g + k + w) % 4294967296
  let t2 := (bSig0 s.a + shaMaj s.a s.b s.c) % 4294967296
  { a := (t1 + t2) % 4294967296, b := s.a, c := s.b, d := s.c,
    e := (s.d + t1) % 4294967296, f := s.e, g := s.f, h := s.g }

/-- SHA-256 compression of one block. -/
def compress (s : Hash8) (block : List Nat) : Hash8 :=
  let w := schedule block
  let t := (List.range 64).foldl (fun st i => round1 (Ksha.getD i 0) (w.getD i 0) st) s
  { a := (s.a + t.a) % 4294967296, b := (s.b + t.b) % 4294967296,
    c := (s.c + t.c) % 4294967296, d := (s.d + t.d) % 4294967296,
    e := (s.e + t.e) % 4294967296, f := (s.f + t.f) % 4294967296,
    g := (s.g + t.g) % 4294967296, h := (s.h + t.h) % 4294967296 }

/-- SHA-256 of a byte sequence. -/
def sha256Bytes (msg : List Nat) : Hash8 :=
  (toBlocks16 (toWords (padMessage msg))).foldl compress h0

/-- Fixed-width (8 hex digits) lowercase rendering of a 32-bit word. -/
def hex8 (n : Nat) : List Char :=
  [hexDigitChar (n / 268435456 % 16), hexDigitChar (n / 16777216 % 16),
   hexDigitChar (n / 1048576 % 16), hexDigitChar (n / 65536 % 16),
   hexDigitChar (n / 4096 % 16), hexDigitChar (n / 256 % 16),
   hexDigitChar (n / 16 % 16), hexDigitChar (n % 16)]

/-- `hexdigest()`: 64 lowercase hex characters of the final state. -/
def hexdigest (s : Hash8) : List Char :=
  hex8 s.a ++ hex8 s.b ++ hex8 s.c ++ hex8 s.d ++ hex8 s.e ++ hex8 s.f ++ hex8 s.g ++ hex8 s.h

/-- `fingerprint(payload)`: SHA-256 hex digest of the UTF-8 encoded
canonical JSON serialization of the payload. -/
def fingerprint (payload : List (String × Option String)) : String :=
  String.mk (hexdigest (sha256Bytes (utf8Encode (serializeDict payload))))

/-- Python `x or default` for an optional string (`None` and `""` fall back). -/
def pyOr (o : Option String) (dflt : String) : String :=
  match o with
  | none => dflt
  | some s => if s.isEmpty then dflt else s

/-- `format_message(info)`: the "status changed" alert text.  The
"Перевірено" timestamp (`datetime.utcnow().strftime(...)`) is a parameter. -/
def format_message (info : OutageInfo) (now : String) : String :=
  let lines := ["⚡️ ДТЕК — зміна статусу", "Омєга"]
  let lines := match info.status_line with
    | some s => if s.isEmpty then lines else lines ++ [s]
    | none => lines
  let lines := match info.reason with
    | some s => if s.isEmpty then lines else lines ++ ["Причина: " ++ s]
    | none => lines
  let lines := match info.start_dt with
    | some s => if s.isEmpty then lines else lines ++ ["<b>Час початку:</b> " ++ s]
    | none => lines
  let lines :=
    if truthyStr info.restore_dt then
      lines ++ ["<b>Орієнтовне відновлення:</b> " ++ info.restore_dt.getD ""]
    else if truthyStr info.restore_raw then
      lines ++ ["<b>Орієнтовне відновлення:</b> " ++ info.restore_raw.getD ""]
    else lines
  let lines := lines ++ ["Перевірено: " ++ now ++ " (UTC)"]
  String.intercalate "\n" lines

/-- `format_restored_message`: the "power restored" text, quoting the
remembered window with `"невідомо"` fallbacks via Python `or`. -/
def format_restored_message (address : String)
    (start_dt restore_dt restore_raw : Option String) : String :=
  let start_part := pyOr start_dt "невідомо"
  let end_part := pyOr restore_dt (pyOr restore_raw "невідомо")
  "✅ Світло з’явилося.\n" ++ "Адреса: " ++ address ++ "\n" ++
    "Світла не було: " ++ start_part ++ " — " ++ end_part

/-- The persisted state file (`state.json`), with the keys `main` reads via
`prev.get(...)`; a missing key reads as `none`. -/
structure PState where
  fingerprint : Option String := none
  message_id : Option Int := none
  last_outage_start : Option String := none
  last_outage_restore : Option String := none
  last_outage_restore_raw : Option String := none
  payload : Option (List (String × Option String)) := none
  updated_at : Option String := none
deriving DecidableEq

/-- A Telegram action attempted by a run, in order. -/
inductive TgAction where
  | send (text : String)
  | edit (mid : Int) (text : String)
deriving DecidableEq

/-- The notification collaborator: `send(text) -> message_id` and the
success of `edit(message_id, text)` (an unsuccessful edit raises in the
source and is caught by the fallback). -/
structure TgEnv where
  send : String → Int
  editOk : Int → String → Bool

/-- Result of one run of the decision core: the Telegram actions attempted
(in order) and the state written by `save_state`, if any. -/
structure RunResult where
  actions : List TgAction
  saved : Option PState
deriving DecidableEq

/-- Classification computed in `main`: disclaimer page, or all three of
start/restore/restore_raw falsy (`not info.start_dt and not ...`). -/
def no_outage_now (info : OutageInfo) (body_text : String) : Bool :=
  is_disclaimer_page body_text ||
    (!truthyStr info.start_dt && !truthyStr info.restore_dt && !truthyStr info.restore_raw)

/-- `had_outage_before = bool(last_start or last_restore or last_restore_raw)`. -/
def had_outage_before (prev : PState) : Bool :=
  truthyStr prev.last_outage_start || truthyStr prev.last_outage_restore ||
    truthyStr prev.last_outage_restore_raw

/-- The state dict written in the restored branch: fingerprint `NO_OUTAGE`,
window cleared, `message_id` kept. -/
def restoredSavedState (address : String) (mid : Option Int) (now : String) : PState :=
  { fingerprint := some "NO_OUTAGE",
    payload := some [("address", some address), ("status", some "NO_OUTAGE")],
    message_id := mid,
    updated_at := some now,
    last_outage_start := none,
    last_outage_restore := none,
    last_outage_restore_raw := none }

/-- The state dict written in the active-outage branches: new fingerprint
and payload, the given `message_id`, and the record's window remembered. -/
def activeSavedState (info : OutageInfo) (mid : Option Int) (now : String) : PState :=
  { fingerprint := some (fingerprint (stable_payload info)),
    payload := some (stable_payload info),
    message_id := mid,
    updated_at := some now,
    last_outage_start := info.start_dt,
    last_outage_restore := info.restore_dt,
    last_outage_restore_raw := info.restore_raw }

/-- The decision core of `main()`, from the point where the fetched record
and page text are available: classification, restored notice, baseline,
unchanged short-circuit, and the edit-else-send branch.  `now` stands for
`datetime.utcnow()` rendering. -/
def mainRun (env : TgEnv) (prev : PState) (info : OutageInfo)
    (body_text : String) (now : String) : RunResult :=
  if no_outage_now info body_text then
    if had_outage_before prev then
      { actions := [TgAction.send (format_restored_message info.address
          prev.last_outage_start prev.last_outage_restore prev.last_outage_restore_raw)],
        saved := some (restoredSavedState info.address prev.message_id now) }
    else
      { actions := [], saved := none }
  else
    let fp := fingerprint (stable_payload info)
    match prev.fingerprint with
    | none =>
      { actions := [], saved := some (activeSavedState info prev.message_id now) }
    | some pfp =>
      if fp = pfp then
        { actions := [], saved := none }
      else
        let msg := format_message info now
        match prev.message_id with
        | some mid =>
          if mid != 0 then
            if env.editOk mid msg then
              { actions := [TgAction.edit mid msg],
                saved := some (activeSavedState info (some mid) now) }
            else
              { actions := [TgAction.edit mid msg, TgAction.send msg],
                saved := some (activeSavedState info (some (env.send msg)) now) }
          else
            { actions := [TgAction.send msg],
              saved := some (activeSavedState info (some (env.send msg)) now) }
        | none =>
          { actions := [TgAction.send msg],
            saved := some (activeSavedState info (some (env.send msg)) now) }

/-- `fetch_outage_info`: up to three attempts of the underlying fetch;
`outcomes i` is the result the `i`-th invocation would produce.  Returns
the overall result together with the number of invocations made. -/
def fetch_outage_info {E A : Type} (outcomes : Nat → Except E A) : Except E A × Nat :=
  match outcomes 1 with
  | Except.ok a => (Except.ok a, 1)
  | Except.error _ =>
    match outcomes 2 with
    | Except.ok a => (Except.ok a, 2)
    | Except.error _ =>
      match outcomes 3 with
      | Except.ok a => (Except.ok a, 3)
      | Except.error e => (Except.error e, 3)

/-- Python whitespace (the set matched by `str.isspace` and by `\s` in
`re` on `str` patterns). -/
def isPySpace (c : Char) : Bool :=
  ('\x09' ≤ c && c ≤ '\x0d') || ('\x1c' ≤ c && c ≤ '\x1f') || c = ' ' || c = '\x85' ||
    c = '\xa0' || c = '\u1680' || ('\u2000' ≤ c && c ≤ '\u200a') || c = '\u2028' ||
    c = '\u2029' || c = '\u202f' || c = '\u205f' || c = '\u3000'

/-- `str.strip()`: drop Python whitespace from both ends. -/
def stripBoth (l : List Char) : List Char :=
  ((l.dropWhile isPySpace).reverse.dropWhile isPySpace).reverse

/-- Line-break characters recognised by `str.splitlines` (besides `\r\n`
and `\r`, which the splitter below handles positionally). -/
def isLineBreak (c : Char) : Bool :=
  c = '\x0a' || c = '\x0b' || c = '\x0c' || c = '\x0d' || c = '\x1c' || c = '\x1d' ||
    c = '\x1e' || c = '\x85' || c = '\u2028' || c = '\u2029'

/-- `str.splitlines()` worker: accumulates the current line reversed. -/
def splitlinesAux : List Char → List Char → List (List Char)
  | [], acc => if acc.isEmpty then [] else [acc.reverse]
  | '\x0d' :: '\x0a' :: rest, acc => acc.reverse :: splitlinesAux rest []
  | c :: rest, acc =>
    if isLineBreak c then acc.reverse :: splitlinesAux rest []
    else splitlinesAux rest (c :: acc)

/-- The preprocessed line list of `parse_outage_from_page_text`: split into
lines, strip each, drop falsy (empty) lines. -/
def pageLines (page_text : String) : List String :=
  ((splitlinesAux page_text.data []).map (fun l => String.mk (stripBoth l))).filter
    (fun s => !s.isEmpty)

/-- First anchor phrasing. -/
def anchorA : String := "За вашою адресою"

/-- Second anchor phrasing. -/
def anchorB : String := "За цією адресою"

/-- The reason line marker. -/
def reasonAnchor : String := "Причина:"

/-- The anchor index: first line containing either anchor phrase, else one
line before the first line starting with `"Причина:"` (clamped at 0). -/
def anchorIdx (lines : List String) : Option Nat :=
  match lines.findIdx? (fun ln =>
      containsSub ln.data anchorA.data || containsSub ln.data anchorB.data) with
  | some i => some i
  | none =>
    match lines.findIdx? (fun ln => reasonAnchor.data.isPrefixOf ln.data) with
    | some i => some (i - 1)
    | none => none

/-- `raw_block`: up to 14 lines from the anchor, newline-joined; `None`
when there is no anchor or the slice is empty. -/
def rawBlockOf (lines : List String) : Option String :=
  match anchorIdx lines with
  | none => none
  | some i =>
    let bl := (lines.drop i).take 14
    if bl.isEmpty then none else some (String.intercalate "\n" bl)

/-- `re.search` scaffold: try the position matcher on every suffix, left to
right (including the empty suffix at the end of the text). -/
def firstMatch {α : Type} (f : List Char → Option α) : List Char → Option α
  | [] => f []
  | c :: rest =>
    match f (c :: rest) with
    | some a => some a
    | none => firstMatch f rest

/-- Position matcher for `(За (?:вашою|цією) адресою[^\n]*)`: one of the
anchor phrases, extended greedily to the end of the line. -/
def matchStatusAt (l : List Char) : Option (List Char) :=
  if anchorA.data.isPrefixOf l then
    some (anchorA.data ++ (l.drop anchorA.data.length).takeWhile (fun c => c ≠ '\x0a'))
  else if anchorB.data.isPrefixOf l then
    some (anchorB.data ++ (l.drop anchorB.data.length).takeWhile (fun c => c ≠ '\x0a'))
  else none

/-- Backtracking tail of `\s*(.+)`: with `i` the number of whitespace
characters still consumed by `\s*` (started at the maximal run), capture
`(.+)` — greedy up to end of line — at the first `i` (from above) whose
remainder starts with a character other than `\n`. -/
def dotPlusBack (l : List Char) : Nat → Option (List Char)
  | 0 =>
    match l with
    | [] => none
    | c :: _ => if c = '\x0a' then none else some (l.takeWhile (fun c => c ≠ '\x0a'))
  | i + 1 =>
    match l.drop (i + 1) with
    | [] => dotPlusBack l i
    | c :: _ =>
      if c = '\x0a' then dotPlusBack l i
      else some ((l.drop (i + 1)).takeWhile (fun c => c ≠ '\x0a'))

/-- Match `\s*(.+)` against `l`, returning the capture. -/
def wsDotPlus (l : List Char) : Option (List Char) :=
  dotPlusBack l (l.takeWhile isPySpace).length

/-- Position matcher for `Причина:\s*(.+)`. -/
def matchReasonAt (l : List Char) : Option (List Char) :=
  if reasonAnchor.data.isPrefixOf l then
    wsDotPlus (l.drop reasonAnchor.data.length)
  else none

/-- Literal token: consume `w` as a prefix. -/
def lit (w : List Char) (l : List Char) : Option (List Char) :=
  if w.isPrefixOf l then some (l.drop w.length) else none

/-- `\s+` followed by a non-whitespace token: maximal-munch run of at least
one whitespace character. -/
def ws1 (l : List Char) : Option (List Char) :=
  match l with
  | [] => none
  | c :: _ => if isPySpace c then some (l.dropWhile isPySpace) else none

/-- `\s*` followed by a non-whitespace token: maximal munch. -/
def ws0 (l : List Char) : List Char := l.dropWhile isPySpace

/-- `[–-]`: the dash class used in the patterns. -/
def dashTok (l : List Char) : Option (List Char) :=
  match l with
  | [] => none
  | c :: r => if c = '–' || c = '-' then some r else none

/-- ASCII digit range test (the model restricts `\d` to ASCII digits). -/
def digitIn (lo hi c : Char) : Bool := lo ≤ c && c ≤ hi

/-- Capture parts of `([0-2]\d:[0-5]\d)(\s+)(\d{2}\.\d{2}\.\d{4})`:
time text, whitespace run, date text. -/
def matchTimeDateParts (l : List Char) : Option (List Char × List Char × List Char) :=
  match l with
  | c1 :: c2 :: ':' :: c3 :: c4 :: rest =>
    if digitIn '0' '2' c1 && c2.isDigit && digitIn '0' '5' c3 && c4.isDigit then
      match rest with
      | [] => none
      | c :: _ =>
        if isPySpace c then
          let wsPart := rest.takeWhile isPySpace
          match rest.dropWhile isPySpace with
          | d1 :: d2 :: '.' :: d3 :: d4 :: '.' :: y1 :: y2 :: y3 :: y4 :: _ =>
            if d1.isDigit && d2.isDigit && d3.isDigit && d4.isDigit &&
               y1.isDigit && y2.isDigit && y3.isDigit && y4.isDigit then
              some ([c1, c2, ':', c3, c4], wsPart, [d1, d2, '.', d3, d4, '.', y1, y2, y3, y4])
            else none
          | _ => none
        else none
    else none
  | _ => none

/-- Position matcher for
`Час\s+початку\s*[–-]\s*([0-2]\d:[0-5]\d\s+\d{2}\.\d{2}\.\d{4})`. -/
def matchStartTimeAt (l : List Char) : Option (List Char) :=
  (lit "Час".data l).bind fun r1 =>
  (ws1 r1).bind fun r2 =>
  (lit "початку".data r2).bind fun r3 =>
  (dashTok (ws0 r3)).bind fun r4 =>
  (matchTimeDateParts (ws0 r4)).map fun (t, w, d) => t ++ w ++ d

/-- The start-time capture of the page, if the pattern matches anywhere. -/
def startCapture (page : List Char) : Option (List Char) :=
  firstMatch matchStartTimeAt page

/-- Position matcher for
`Орієнтовний\s+час\s+відновлення\s+електроенергії\s*[–-]\s*(.+)`. -/
def matchRestoreAt (l : List Char) : Option (List Char) :=
  (lit "Орієнтовний".data l).bind fun r1 =>
  (ws1 r1).bind fun r2 =>
  (lit "час".data r2).bind fun r3 =>
  (ws1 r3).bind fun r4 =>
  (lit "відновлення".data r4).bind fun r5 =>
  (ws1 r5).bind fun r6 =>
  (lit "електроенергії".data r6).bind fun r7 =>
  (dashTok (ws0 r7)).bind fun r8 =>
  wsDotPlus r8

/-- The restoration-estimate capture of the page. -/
def restoreCapture (page : List Char) : Option (List Char) :=
  firstMatch matchRestoreAt page

/-- The secondary search inside `restore_raw`:
`([0-2]\d:[0-5]\d)\s+(\d{2}\.\d{2}\.\d{4})`, returning the two groups. -/
def m2Search (s : List Char) : Option (List Char × List Char) :=
  firstMatch (fun l => (matchTimeDateParts l).map fun (t, _, d) => (t, d)) s

/-- Try candidate token readings in order, with the continuation. -/
def firstSome {α β : Type} : List α → (α → Option β) → Option β
  | [], _ => none
  | a :: rest, k =>
    match k a with
    | some b => some b
    | none => firstSome rest k

/-- Numeric value of an ASCII digit. -/
def digitVal (c : Char) : Nat := c.toNat - 48

/-- `%H` (`2[0-3]|[0-1]\d|\d`): candidate (value, rest) readings in
alternation order. -/
def tokH : List Char → List (Nat × List Char)
  | c1 :: c2 :: rest =>
    (if c1 = '2' && digitIn '0' '3' c2 then [(20 + digitVal c2, rest)] else []) ++
    (if digitIn '0' '1' c1 && c2.isDigit then [(digitVal c1 * 10 + digitVal c2, rest)] else []) ++
    (if c1.isDigit then [(digitVal c1, c2 :: rest)] else [])
  | [c1] => if c1.isDigit then [(digitVal c1, [])] else []
  | [] => []

/-- `%M` (`[0-5]\d|\d`). -/
def tokM : List Char → List (Nat × List Char)
  | c1 :: c2 :: rest =>
    (if digitIn '0' '5' c1 && c2.isDigit then [(digitVal c1 * 10 + digitVal c2, rest)] else []) ++
    (if c1.isDigit then [(digitVal c1, c2 :: rest)] else [])
  | [c1] => if c1.isDigit then [(digitVal c1, [])] else []
  | [] => []

/-- `%d` (`3[01]|[12]\d|0[1-9]|[1-9]`). -/
def tokD : List Char → List (Nat × List Char)
  | c1 :: c2 :: rest =>
    (if c1 = '3' && digitIn '0' '1' c2 then [(30 + digitVal c2, rest)] else []) ++
    (if digitIn '1' '2' c1 && c2.isDigit then [(digitVal c1 * 10 + digitVal c2, rest)] else []) ++
    (if c1 = '0' && digitIn '1' '9' c2 then [(digitVal c2, rest)] else []) ++
    (if digitIn '1' '9' c1 then [(digitVal c1, c2 :: rest)] else [])
  | [c1] => if digitIn '1' '9' c1 then [(digitVal c1, [])] else []
  | [] => []

/-- `%m` (`1[0-2]|0[1-9]|[1-9]`). -/
def tokMo : List Char → List (Nat × List Char)
  | c1 :: c2 :: rest =>
    (if c1 = '1' && digitIn '0' '2' c2 then [(10 + digitVal c2, rest)] else []) ++
    (if c1 = '0' && digitIn '1' '9' c2 then [(digitVal c2, rest)] else []) ++
    (if digitIn '1' '9' c1 then [(digitVal c1, c2 :: rest)] else [])
  | [c1] => if digitIn '1' '9' c1 then [(digitVal c1, [])] else []
  | [] => []

/-- `%Y` (`\d\d\d\d`): exactly four digits. -/
def tokY (l : List Char) : Option (Nat × List Char) :=
  match l with
  | y1 :: y2 :: y3 :: y4 :: rest =>
    if y1.isDigit && y2.isDigit && y3.isDigit && y4.isDigit then
      some (digitVal y1 * 1000 + digitVal y2 * 100 + digitVal y3 * 10 + digitVal y4, rest)
    else none
  | _ => none

/-- Expect one literal character. -/
def expectCh (c : Char) (l : List Char) : Option (List Char) :=
  match l with
  | [] => none
  | x :: r => if x = c then some r else none

/-- A parsed `datetime` value (only the fields this program uses). -/
structure PyDateTime where
  year : Nat
  month : Nat
  day : Nat
  hour : Nat
  minute : Nat
deriving DecidableEq

/-- Gregorian leap year. -/
def isLeap (y : Nat) : Bool := (y % 4 = 0 && y % 100 ≠ 0) || y % 400 = 0

/-- Days in a month (`datetime` validation). -/
def daysInMonth (y m : Nat) : Nat :=
  if m = 2 then (if isLeap y then 29 else 28)
  else if m = 4 || m = 6 || m = 9 || m = 11 then 30
  else 31

/-- The `datetime(...)` constructor checks performed after token matching:
year in `MINYEAR..MAXYEAR`, month/day/hour/minute ranges. -/
def mkDatetime (h mi d mo y : Nat) : Option PyDateTime :=
  if 1 ≤ y && y ≤ 9999 && 1 ≤ mo && mo ≤ 12 && 1 ≤ d && d ≤ daysInMonth y mo &&
     h ≤ 23 && mi ≤ 59 then
    some ⟨y, mo, d, h, mi⟩
  else none

/-- Run the full `"%H:%M %d.%m.%Y"` token sequence over the input, with
regex-style backtracking over the per-token alternatives, and require the
entire input to be consumed. -/
def parseFmt (l : List Char) : Option (Nat × Nat × Nat × Nat × Nat) :=
  firstSome (tokH l) fun (h, r1) =>
  (expectCh ':' r1).bind fun r2 =>
  firstSome (tokM r2) fun (mi, r3) =>
  (ws1 r3).bind fun r4 =>
  firstSome (tokD r4) fun (d, r5) =>
  (expectCh '.' r5).bind fun r6 =>
  firstSome (tokMo r6) fun (mo, r7) =>
  (expectCh '.' r7).bind fun r8 =>
  (tokY r8).bind fun (y, r9) =>
  if r9.isEmpty then some (h, mi, d, mo, y) else none

/-- `_parse_dt_from_ua`: strip, `strptime("%H:%M %d.%m.%Y")`, `None` on any
failure. -/
def _parse_dt_from_ua (s : String) : Option PyDateTime :=
  (parseFmt (stripBoth s.data)).bind fun (h, mi, d, mo, y) => mkDatetime h mi d mo y

/-- Two-digit zero-padded decimal. -/
def pad2 (n : Nat) : String := if n < 10 then "0" ++ toString n else toString n

/-- Four-digit zero-padded decimal. -/
def pad4 (n : Nat) : String :=
  if n < 10 then "000" ++ toString n
  else if n < 100 then "00" ++ toString n
  else if n < 1000 then "0" ++ toString n
  else toString n

/-- `dt.isoformat(sep=" ")` for a whole-minute datetime. -/
def isoformatSpace (dt : PyDateTime) : String :=
  pad4 dt.year ++ "-" ++ pad2 dt.month ++ "-" ++ pad2 dt.day ++ " " ++
    pad2 dt.hour ++ ":" ++ pad2 dt.minute ++ ":00"

/-- `parse_outage_from_page_text`: the whole extractor.  Total by
construction; every field degrades to `none` when its pattern or the
strict date parse fails. -/
def parse_outage_from_page_text (page_text : String) (address : String) : OutageInfo :=
  let lines := pageLines page_text
  let raw_block := rawBlockOf lines
  let pd := page_text.data
  let status_line := (firstMatch matchStatusAt pd).map (fun c => String.mk (stripBoth c))
  let reason := (firstMatch matchReasonAt pd).map (fun c => String.mk (stripBoth c))
  let start_dt := (startCapture pd).bind fun cap =>
    (_parse_dt_from_ua (String.mk cap)).map isoformatSpace
  let restore_raw := (restoreCapture pd).map (fun c => String.mk (stripBoth c))
  let restore_dt := restore_raw.bind fun rr =>
    (m2Search rr.data).bind fun (t, d) =>
      (_parse_dt_from_ua (String.mk (t ++ ' ' :: d))).map isoformatSpace
  { address := address, status_line := status_line, reason := reason,
    start_dt := start_dt, restore_dt := restore_dt, restore_raw := restore_raw,
    raw_block := raw_block }

/-- Concrete notification environment used in witnesses: edits succeed. -/
def wEnv : TgEnv := { send := fun _ => 77, editOk := fun _ _ => true }

/-- Concrete notification environment used in witnesses: edits fail. -/
def wEnvFail : TgEnv := { send := fun _ => 78, editOk := fun _ _ => false }

/-- Concrete record with an active outage window. -/
def wInfoActive : OutageInfo :=
  { address := "addr", start_dt := some "2024-03-05 14:30:00" }

/-- Concrete record with no outage data at all. -/
def wInfoEmpty : OutageInfo := { address := "addr" }

/-- Concrete prior state remembering an outage window. -/
def wPrevWindow : PState :=
  { last_outage_start := some "2024-03-05 14:30:00", message_id := some 5 }

/-- Concrete prior state whose only window field is the empty string:
present as a value, but falsy for the code. -/
def wPrevEmptyStart : PState := { last_outage_start := some "" }

/-- Concrete prior state with a changed fingerprint and the handle `0`:
present as a value, but falsy for the code. -/
def wPrevZeroMid : PState := { fingerprint := some "x", message_id := some 0 }

/-- Concrete prior state recording no active outage. -/
def wPrevNoOutage : PState := { fingerprint := some "NO_OUTAGE" }

/-- Concrete prior state whose fingerprint matches `wInfoActive`. -/
def wPrevSame : PState := { fingerprint := some (fingerprint (stable_payload wInfoActive)) }

/-- Concrete prior state with a changed fingerprint and a usable handle. -/
def wPrevOther : PState := { fingerprint := some "x", message_id := some 5 }

/-- Concrete empty prior state (first-ever run). -/
def wPrevNone : PState := {}

/-- Value of a hexadecimal digit character (used by the JSON string
decoder below). -/
def hexVal (c : Char) : Option Nat :=
  if '0' ≤ c && c ≤ '9' then some (c.toNat - 48)
  else if 'a' ≤ c && c ≤ 'f' then some (c.toNat - 87)
  else if 'A' ≤ c && c ≤ 'F' then some (c.toNat - 55)
  else none

/-- Inverse of the two-character JSON escapes. -/
def unescChar (e : Char) : Char :=
  if e = 'b' then '\x08'
  else if e = 't' then '\x09'
  else if e = 'n' then '\x0a'
  else if e = 'f' then '\x0c'
  else if e = 'r' then '\x0d'
  else e

/-- Decoder for a JSON string body: reads escaped characters until the
closing unescaped quote and returns the decoded body and the remainder
after the quote.  Its round trip with `escape` shows the serialization is
injective. -/
def scanStr : List Char → Option (List Char × List Char)
  | [] => none
  | c :: rest =>
    if c = '"' then some ([], rest)
    else if c = '\\' then
      match rest with
      | [] => none
      | e :: rest2 =>
        if e = 'u' then
          match rest2 with
          | x1 :: x2 :: x3 :: x4 :: rest3 =>
            match hexVal x1, hexVal x2, hexVal x3, hexVal x4 with
            | some a, some b, some c2, some d =>
              (scanStr rest3).map (fun p => (Char.ofNat (4096 * a + 256 * b + 16 * c2 + d) :: p.1, p.2))
            | _, _, _, _ => none
          | _ => none
        else (scanStr rest2).map (fun p => (unescChar e :: p.1, p.2))
    else (scanStr rest).map (fun p => (c :: p.1, p.2))

/-- A string of `n` letters (used to build an infinite record family). -/
def padA (n : Nat) : String := String.mk (List.replicate n 'a')

/-- An infinite family of records sharing an address but with pairwise
distinct start times. -/
def recN (n : Nat) : OutageInfo := { address := "A", start_dt := some (padA n) }

/-- Lowercase-hexadecimal character test. -/
def isLowerHexChar (c : Char) : Bool :=
  ('0' ≤ c && c ≤ '9') || ('a' ≤ c && c ≤ 'f')

theorem hexDigitChar_lowerHex {m : Nat} (h : m < 16) : isLowerHexChar (hexDigitChar m) = true := by
  interval_cases m <;> decide

theorem hex8_length (n : Nat) : (hex8 n).length = 8 := by
  simp [hex8]

theorem hex8_mem_lowerHex {n : Nat} {c : Char} (h : c ∈ hex8 n) : isLowerHexChar c = true := by
  simp only [hex8, List.mem_cons, List.not_mem_nil, or_false] at h
  rcases h with h | h | h | h | h | h | h | h <;>
    exact h ▸ hexDigitChar_lowerHex (Nat.mod_lt _ (by norm_num))

theorem hexdigest_length (s : Hash8) : (hexdigest s).length = 64 := by
  simp [hexdigest, hex8]

theorem hexdigest_mem_lowerHex {s : Hash8} {c : Char} (h : c ∈ hexdigest s) :
    isLowerHexChar c = true := by
  simp only [hexdigest, List.mem_append] at h
  rcases h with ((((((h | h) | h) | h) | h) | h) | h) | h <;> exact hex8_mem_lowerHex h

theorem fingerprint_length (p : List (String × Option String)) : (fingerprint p).length = 64 := by
  show (String.mk _).data.length = 64
  exact hexdigest_length _

theorem fingerprint_mem_lowerHex {p : List (String × Option String)} {c : Char}
    (h : c ∈ (fingerprint p).data) : isLowerHexChar c = true :=
  hexdigest_mem_lowerHex h

theorem fingerprint_ne_of_length {s : String} (h : s.length ≠ 64)
    (p : List (String × Option String)) : fingerprint p ≠ s := by
  intro he
  exact h (he ▸ fingerprint_length p)

theorem fingerprint_ne_NO_OUTAGE (p : List (String × Option String)) :
    fingerprint p ≠ "NO_OUTAGE" :=
  fingerprint_ne_of_length (by decide) p

/-- C2: on a run with no prior fingerprint (uninitialized state) and an
active outage detected, no notification is sent and no edit is attempted
(no Telegram action at all), and the state written carries the new
record's fingerprint and its start/restore/restore_raw window, with the
notification handle passed through. -/
theorem C2_first_run_baseline (env : TgEnv) (prev : PState) (info : OutageInfo)
    (body now : String)
    (hactive : no_outage_now info body = false)
    (hfp : prev.fingerprint = none) :
    mainRun env prev info body now =
      { actions := [], saved := some (activeSavedState info prev.message_id now) } ∧
    (activeSavedState info prev.message_id now).fingerprint =
      some (fingerprint (stable_payload info)) ∧
    (activeSavedState info prev.message_id now).last_outage_start = info.start_dt ∧
    (activeSavedState info prev.message_id now).last_outage_restore = info.restore_dt ∧
    (activeSavedState info prev.message_id now).last_outage_restore_raw = info.restore_raw := by
  refine ⟨?_, rfl, rfl, rfl, rfl⟩
  simp [mainRun, hactive, hfp]

/-- C2 witness: first-ever run with an active outage, concrete inputs. -/
theorem C2_first_run_baseline_witness :
    mainRun wEnv wPrevNone wInfoActive "" "t" =
      { actions := [], saved := some (activeSavedState wInfoActive none "t") } :=
  (C2_first_run_baseline wEnv wPrevNone wInfoActive "" "t" (by decide) rfl).1

/-- C6: on a run with an active outage whose fingerprint equals the prior
persisted fingerprint, no Telegram action happens and nothing is written
(the persisted state is untouched). -/
theorem C6_unchanged_noop (env : TgEnv) (prev : PState) (info : OutageInfo)
    (body now : String)
    (hactive : no_outage_now info body = false)
    (hfp : prev.fingerprint = some (fingerprint (stable_payload info))) :
    mainRun env prev info body now = { actions := [], saved := none } := by
  simp [mainRun, hactive, hfp]

/-- C6 witness: a prior state holding exactly the fingerprint of the
current record. -/
theorem C6_unchanged_noop_witness :
    mainRun wEnv wPrevSame wInfoActive "" "t" = { actions := [], saved := none } :=
  C6_unchanged_noop wEnv wPrevSame wInfoActive "" "t" (by decide) rfl

/-- C4 counterexample: with an uninitialized prior state and a
disclaimer/empty page, the code takes no action but also writes nothing,
so the resulting persisted state does not become `NO_OUTAGE` — its
fingerprint stays absent, contradicting the claimed `NoOutage` next
state. -/
theorem C4_counterexample :
    mainRun wEnv wPrevNone wInfoEmpty "" "t" = { actions := [], saved := none } ∧
    ¬ (((mainRun wEnv wPrevNone wInfoEmpty "" "t").saved.getD wPrevNone).fingerprint =
        some "NO_OUTAGE") := by
  constructor
  · decide
  · decide

/-- C4 amended: on a run with a disclaimer/empty classification and no
truthy remembered window, no notification action is taken and no state is
written — the persisted state is left unchanged (rather than being
rewritten as `NoOutage`). -/
theorem C4_no_window_noop (env : TgEnv) (prev : PState) (info : OutageInfo)
    (body now : String)
    (hempty : no_outage_now info body = true)
    (hwin : had_outage_before prev = false) :
    mainRun env prev info body now = { actions := [], saved := none } := by
  simp [mainRun, hempty, hwin]

/-- C4 witness: empty page, no remembered window. -/
theorem C4_no_window_noop_witness :
    mainRun wEnv wPrevNone wInfoEmpty "" "t" = { actions := [], saved := none } :=
  C4_no_window_noop wEnv wPrevNone wInfoEmpty "" "t" (by decide) (by decide)

/-- C1 counterexample: a persisted state whose only remembered-window field
is the empty string *is* carrying a remembered value (`isSome`), yet on a
disclaimer/empty run the code sends nothing at all (Python truthiness
treats `""` as no window), contradicting the claimed single restored
notification. -/
theorem C1_counterexample :
    wPrevEmptyStart.last_outage_start.isSome = true ∧
    no_outage_now wInfoEmpty "" = true ∧
    mainRun wEnv wPrevEmptyStart wInfoEmpty "" "t" = { actions := [], saved := none } := by
  refine ⟨rfl, by decide, by decide⟩

/-- C1 amended: on a run with a disclaimer/empty classification and a
truthy (non-empty) remembered window, exactly one notification is sent,
its text is the restored message built from the remembered prior window,
the state written has fingerprint `NO_OUTAGE`, all three remembered-window
fields cleared and the notification handle unchanged; and any subsequent
run from that written state with a disclaimer/empty classification does
nothing (no action, no write). -/
theorem C1_restored_once (env : TgEnv) (prev : PState) (info : OutageInfo)
    (body now : String)
    (hempty : no_outage_now info body = true)
    (hwin : had_outage_before prev = true) :
    mainRun env prev info body now =
      { actions := [TgAction.send (format_restored_message info.address
          prev.last_outage_start prev.last_outage_restore prev.last_outage_restore_raw)],
        saved := some (restoredSavedState info.address prev.message_id now) } ∧
    (restoredSavedState info.address prev.message_id now).fingerprint = some "NO_OUTAGE" ∧
    (restoredSavedState info.address prev.message_id now).last_outage_start = none ∧
    (restoredSavedState info.address prev.message_id now).last_outage_restore = none ∧
    (restoredSavedState info.address prev.message_id now).last_outage_restore_raw = none ∧
    (restoredSavedState info.address prev.message_id now).message_id = prev.message_id ∧
    (∀ (env2 : TgEnv) (info2 : OutageInfo) (body2 now2 : String),
      no_outage_now info2 body2 = true →
      mainRun env2 (restoredSavedState info.address prev.message_id now) info2 body2 now2 =
        { actions := [], saved := none }) := by
  refine ⟨?_, rfl, rfl, rfl, rfl, rfl, ?_⟩
  · simp [mainRun, hempty, hwin]
  · intro env2 info2 body2 now2 hempty2
    simp [mainRun, hempty2, had_outage_before, restoredSavedState, truthyStr]

/-- C1 witness: restored notice sent from a concrete remembered window. -/
theorem C1_restored_once_witness :
    mainRun wEnv wPrevWindow wInfoEmpty "" "t" =
      { actions := [TgAction.send (format_restored_message "addr"
          (some "2024-03-05 14:30:00") none none)],
        saved := some (restoredSavedState "addr" (some 5) "t") } :=
  (C1_restored_once wEnv wPrevWindow wInfoEmpty "" "t" (by decide) (by decide)).1

/-- C5 counterexample: with a persisted notification handle equal to `0`
(present, hence "a notification handle exists") and a changed active
outage, the code never attempts an edit — its first and only action is a
fresh send — because Python truthiness treats the handle `0` as absent. -/
theorem C5_counterexample :
    wPrevZeroMid.message_id.isSome = true ∧
    mainRun wEnv wPrevZeroMid wInfoActive "" "t" =
      { actions := [TgAction.send (format_message wInfoActive "t")],
        saved := some (activeSavedState wInfoActive (some 77) "t") } ∧
    (∀ mid text, TgAction.edit mid text ∉ (mainRun wEnv wPrevZeroMid wInfoActive "" "t").actions) := by
  have hne : fingerprint (stable_payload wInfoActive) ≠ "x" :=
    fingerprint_ne_of_length (by decide) _
  have hrun : mainRun wEnv wPrevZeroMid wInfoActive "" "t" =
      { actions := [TgAction.send (format_message wInfoActive "t")],
        saved := some (activeSavedState wInfoActive (some 77) "t") } := by
    simp only [mainRun]
    rw [if_neg (by decide)]
    show (if fingerprint (stable_payload wInfoActive) = "x" then _ else _) = _
    rw [if_neg hne]
    rfl
  refine ⟨rfl, hrun, ?_⟩
  intro mid text hmem
  rw [hrun] at hmem
  simp at hmem

/-- C5 amended: on a run with an active outage whose fingerprint differs
from the prior one, if a truthy (nonzero) handle exists an edit of that
handle is attempted first; when the edit succeeds it is the only action
and the old handle is kept; when the edit fails, or when no truthy handle
exists, exactly one new notification is sent and the returned handle is
adopted; in every case the written state carries the new fingerprint and
the new record's window. -/
theorem C5_changed_edit_else_send (env : TgEnv) (prev : PState) (info : OutageInfo)
    (body now : String) (pfp : String)
    (hactive : no_outage_now info body = false)
    (hfp : prev.fingerprint = some pfp)
    (hne : fingerprint (stable_payload info) ≠ pfp) :
    (∀ mid, prev.message_id = some mid → mid ≠ 0 →
      (env.editOk mid (format_message info now) = true →
        mainRun env prev info body now =
          { actions := [TgAction.edit mid (format_message info now)],
            saved := some (activeSavedState info (some mid) now) }) ∧
      (env.editOk mid (format_message info now) = false →
        mainRun env prev info body now =
          { actions := [TgAction.edit mid (format_message info now),
                        TgAction.send (format_message info now)],
            saved := some (activeSavedState info
              (some (env.send (format_message info now))) now) })) ∧
    ((prev.message_id = none ∨ prev.message_id = some 0) →
      mainRun env prev info body now =
        { actions := [TgAction.send (format_message info now)],
          saved := some (activeSavedState info
            (some (env.send (format_message info now))) now) }) ∧
    ∀ st, (mainRun env prev info body now).saved = some st →
      st.fingerprint = some (fingerprint (stable_payload info)) ∧
      st.last_outage_start = info.start_dt ∧
      st.last_outage_restore = info.restore_dt ∧
      st.last_outage_restore_raw = info.restore_raw := by
  have hbranch : ∀ (X : RunResult),
      (match prev.message_id with
        | some mid =>
          if mid != 0 then
            if env.editOk mid (format_message info now) then
              { actions := [TgAction.edit mid (format_message info now)],
                saved := some (activeSavedState info (some mid) now) }
            else
              { actions := [TgAction.edit mid (format_message info now),
                            TgAction.send (format_message info now)],
                saved := some (activeSavedState info
                  (some (env.send (format_message info now))) now) }
          else
            { actions := [TgAction.send (format_message info now)],
              saved := some (activeSavedState info
                (some (env.send (format_message info now))) now) }
        | none =>
          { actions := [TgAction.send (format_message info now)],
            saved := some (activeSavedState info
              (some (env.send (format_message info now))) now) } : RunResult) = X →
      mainRun env prev info body now = X := by
    intro X hX
    simp only [mainRun, hactive, Bool.false_eq_true, if_false, hfp]
    rw [if_neg hne]
    exact hX
  refine ⟨?_, ?_, ?_⟩
  · intro mid hmid hmid0
    constructor
    · intro hedit
      apply hbranch
      rw [hmid]
      simp [hmid0, hedit]
    · intro hedit
      apply hbranch
      rw [hmid]
      simp [hmid0, hedit]
  · intro hmid
    apply hbranch
    rcases hmid with hmid | hmid <;> rw [hmid] <;> simp
  · intro st hst
    have hall : st = activeSavedState info st.message_id now := by
      rcases hmidc : prev.message_id with _ | mid
      · have := hbranch _ rfl
        rw [hmidc] at this
        rw [this] at hst
        simp at hst
        subst hst
        rfl
      · have := hbranch _ rfl
        rw [hmidc] at this
        rw [this] at hst
        by_cases h0 : mid != 0 <;> simp [h0] at hst <;>
          [skip; (subst hst; rfl)]
        by_cases he : env.editOk mid (format_message info now) <;> simp [he] at hst <;>
          subst hst <;> rfl
    rw [hall]
    exact ⟨rfl, rfl, rfl, rfl⟩

/-- C5 witness: changed outage, prior handle 5, edits succeeding. -/
theorem C5_changed_edit_else_send_witness :
    mainRun wEnv wPrevOther wInfoActive "" "t" =
      { actions := [TgAction.edit 5 (format_message wInfoActive "t")],
        saved := some (activeSavedState wInfoActive (some 5) "t") } :=
  (((C5_changed_edit_else_send wEnv wPrevOther wInfoActive "" "t" "x" (by decide) rfl
      (fingerprint_ne_of_length (by decide) _)).1 5 rfl (by decide)).1) rfl

/-- C10: the fingerprint of any payload is a 64-character lowercase-hex
string, hence never the sentinel `NO_OUTAGE`; consequently a run with a
`NO_OUTAGE` prior fingerprint and an active outage always lands in the
changed branch and attempts at least one notification action. -/
theorem C10_sentinel_disjoint :
    (∀ p : List (String × Option String),
      (fingerprint p).length = 64 ∧
      (∀ c ∈ (fingerprint p).data, isLowerHexChar c = true) ∧
      fingerprint p ≠ "NO_OUTAGE") ∧
    ∀ (env : TgEnv) (prev : PState) (info : OutageInfo) (body now : String),
      prev.fingerprint = some "NO_OUTAGE" →
      no_outage_now info body = false →
      (mainRun env prev info body now).actions ≠ [] := by
  constructor
  · intro p
    exact ⟨fingerprint_length p, fun _ hc => fingerprint_mem_lowerHex hc,
      fingerprint_ne_NO_OUTAGE p⟩
  · intro env prev info body now hfp hactive
    simp only [mainRun, hactive, Bool.false_eq_true, if_false, hfp]
    rw [if_neg (fingerprint_ne_NO_OUTAGE _)]
    rcases prev.message_id with _ | mid
    · simp
    · by_cases h0 : mid != 0 <;> simp [h0] <;>
        by_cases he : env.editOk mid (format_message info now) <;> simp [he]

/-- C10 witness: prior `NO_OUTAGE` state, concrete active outage. -/
theorem C10_sentinel_disjoint_witness :
    fingerprint (stable_payload wInfoActive) ≠ "NO_OUTAGE" ∧
    (mainRun wEnv wPrevNoOutage wInfoActive "" "t").actions ≠ [] :=
  ⟨(C10_sentinel_disjoint.1 (stable_payload wInfoActive)).2.2,
   C10_sentinel_disjoint.2 wEnv wPrevNoOutage wInfoActive "" "t" rfl (by decide)⟩

/-- C9: the retry wrapper makes at most three invocations of the underlying
fetch; a success on any attempt is returned immediately with no further
attempts; an error on an attempt is caught and the next attempt made,
until the budget is exhausted, in which case the error of the third (last)
attempt propagates. -/
theorem C9_fetch_retry {E A : Type} (outcomes : Nat → Except E A) :
    (fetch_outage_info outcomes).2 ≤ 3 ∧
    (∀ a, outcomes 1 = Except.ok a →
      fetch_outage_info outcomes = (Except.ok a, 1)) ∧
    (∀ e1 a, outcomes 1 = Except.error e1 → outcomes 2 = Except.ok a →
      fetch_outage_info outcomes = (Except.ok a, 2)) ∧
    (∀ e1 e2 a, outcomes 1 = Except.error e1 → outcomes 2 = Except.error e2 →
      outcomes 3 = Except.ok a →
      fetch_outage_info outcomes = (Except.ok a, 3)) ∧
    (∀ e1 e2 e3, outcomes 1 = Except.error e1 → outcomes 2 = Except.error e2 →
      outcomes 3 = Except.error e3 →
      fetch_outage_info outcomes = (Except.error e3, 3)) := by
  refine ⟨?_, ?_, ?_, ?_, ?_⟩
  · rcases h1 : outcomes 1 with e1 | a1 <;> simp only [fetch_outage_info, h1]
    · rcases h2 : outcomes 2 with e2 | a2 <;> simp only []
      · rcases h3 : outcomes 3 with e3 | a3 <;> simp
      · simp
    · simp
  · intro a h1
    simp [fetch_outage_info, h1]
  · intro e1 a h1 h2
    simp [fetch_outage_info, h1, h2]
  · intro e1 e2 a h1 h2 h3
    simp [fetch_outage_info, h1, h2, h3]
  · intro e1 e2 e3 h1 h2 h3
    simp [fetch_outage_info, h1, h2, h3]

/-- Strict key order on dict entries (used only in proofs about sorting). -/
def keyLt (p q : String × Option String) : Prop := p.1 < q.1

instance : IsAntisymm (String × Option String) keyLt :=
  ⟨fun _ _ h1 h2 => absurd h2 (lt_asymm h1)⟩

theorem sorted_keyLt_insertionSort {l : List (String × Option String)}
    (hnd : (l.map Prod.fst).Nodup) :
    List.Sorted keyLt (List.insertionSort keyLe l) := by
  have hs : List.Sorted keyLe (List.insertionSort keyLe l) :=
    List.sorted_insertionSort keyLe l
  have hperm : ((List.insertionSort keyLe l).map Prod.fst).Perm (l.map Prod.fst) :=
    (List.perm_insertionSort keyLe l).map Prod.fst
  have hnd2 : ((List.insertionSort keyLe l).map Prod.fst).Nodup := hperm.nodup_iff.mpr hnd
  have hne : List.Pairwise (fun a b : String × Option String => a.1 ≠ b.1)
      (List.insertionSort keyLe l) := List.pairwise_map.mp hnd2
  exact List.Pairwise.imp₂ (fun _ _ hle hne2 => lt_of_le_of_ne hle hne2) hs hne

theorem insertionSort_eq_of_perm {l1 l2 : List (String × Option String)}
    (hp : l1.Perm l2) (hnd : (l1.map Prod.fst).Nodup) :
    List.insertionSort keyLe l1 = List.insertionSort keyLe l2 := by
  have hnd2 : (l2.map Prod.fst).Nodup := (hp.map Prod.fst).nodup_iff.mp hnd
  exact List.eq_of_perm_of_sorted
    (((List.perm_insertionSort keyLe l1).trans hp).trans
      (List.perm_insertionSort keyLe l2).symm)
    (sorted_keyLt_insertionSort hnd) (sorted_keyLt_insertionSort hnd2)

/-- C3: the fingerprint is a deterministic function of exactly the four
payload fields — two records agreeing on address, start_dt, restore_dt and
restore_raw (whatever their status_line, reason or raw_block) have equal
fingerprints — and it is order-independent: any permutation of the
payload's entries fingerprints identically. -/
theorem C3_fingerprint_four_fields (r1 r2 : OutageInfo)
    (ha : r1.address = r2.address) (hs : r1.start_dt = r2.start_dt)
    (hrd : r1.restore_dt = r2.restore_dt) (hrr : r1.restore_raw = r2.restore_raw) :
    fingerprint (stable_payload r1) = fingerprint (stable_payload r2) ∧
    ∀ l, l.Perm (stable_payload r1) → fingerprint l = fingerprint (stable_payload r1) := by
  have hpay : stable_payload r1 = stable_payload r2 := by
    simp [stable_payload, ha, hs, hrd, hrr]
  refine ⟨by rw [hpay], ?_⟩
  intro l hl
  have hnd : ((stable_payload r1).map Prod.fst).Nodup := by
    show (["address", "start_dt", "restore_dt", "restore_raw"] : List String).Nodup
    decide
  have hndl : (l.map Prod.fst).Nodup := ((hl.map Prod.fst).nodup_iff).mpr hnd
  have hsort := insertionSort_eq_of_perm hl hndl
  simp only [fingerprint, serializeDict, hsort]

/-- C3 witness: two records identical in the four fields but with different
reasons fingerprint identically. -/
theorem C3_fingerprint_four_fields_witness :
    fingerprint (stable_payload
      { address := "a", reason := some "x", start_dt := some "s" }) =
    fingerprint (stable_payload
      { address := "a", reason := some "y", start_dt := some "s" }) :=
  (C3_fingerprint_four_fields
    { address := "a", reason := some "x", start_dt := some "s" }
    { address := "a", reason := some "y", start_dt := some "s" }
    rfl rfl rfl rfl).1

/-- C8: the extractor is a total function — for every page text and address
it returns a record whose address is the given address — and the two
strictly-parsed date fields degrade gracefully: each is either absent, or
the strict pattern match and the `strptime`-style parse both succeeded and
the field holds the parsed datetime's isoformat.  A capture that fails
datetime validation (for instance hour 29 or day 31.02) leaves the field
absent instead of failing the run. -/
theorem C8_extractor_total (page_text address : String) :
    (parse_outage_from_page_text page_text address).address = address ∧
    ((parse_outage_from_page_text page_text address).start_dt = none ∨
      ∃ cap dt, startCapture page_text.data = some cap ∧
        _parse_dt_from_ua (String.mk cap) = some dt ∧
        (parse_outage_from_page_text page_text address).start_dt =
          some (isoformatSpace dt)) ∧
    ((parse_outage_from_page_text page_text address).restore_dt = none ∨
      ∃ rr t d dt, (parse_outage_from_page_text page_text address).restore_raw = some rr ∧
        m2Search rr.data = some (t, d) ∧
        _parse_dt_from_ua (String.mk (t ++ ' ' :: d)) = some dt ∧
        (parse_outage_from_page_text page_text address).restore_dt =
          some (isoformatSpace dt)) := by
  refine ⟨rfl, ?_, ?_⟩
  · rcases hc : startCapture page_text.data with _ | cap
    · left
      simp [parse_outage_from_page_text, hc]
    · rcases hd : _parse_dt_from_ua (String.mk cap) with _ | dt
      · left
        simp [parse_outage_from_page_text, hc, hd]
      · right
        exact ⟨cap, dt, rfl, hd, by simp [parse_outage_from_page_text, hc, hd]⟩
  · rcases hrc : restoreCapture page_text.data with _ | rcap
    · left
      simp [parse_outage_from_page_text, hrc]
    · rcases hm2 : m2Search (String.mk (stripBoth rcap)).data with _ | td
      · left
        simp [parse_outage_from_page_text, hrc, hm2]
      · rcases td with ⟨t, d⟩
        rcases hd2 : _parse_dt_from_ua (String.mk (t ++ ' ' :: d)) with _ | dt
        · left
          simp [parse_outage_from_page_text, hrc, hm2, hd2]
        · right
          exact ⟨String.mk (stripBoth rcap), t, d, dt,
            by simp [parse_outage_from_page_text, hrc],
            hm2, hd2,
            by simp [parse_outage_from_page_text, hrc, hm2, hd2]⟩

/-- C9 witness: all three attempts fail; the third error propagates after
exactly three invocations. -/
theorem C9_fetch_retry_witness :
    fetch_outage_info (fun i => (Except.error (toString i) : Except String Unit)) =
      (Except.error "3", 3) :=
  (C9_fetch_retry (fun i => (Except.error (toString i) : Except String Unit))).2.2.2.2
    "1" "2" "3" rfl rfl rfl


theorem hexVal_hexDigitChar {m : Nat} (h : m < 16) : hexVal (hexDigitChar m) = some m := by
  interval_cases m <;> decide

theorem scanStr_quote (t : List Char) : scanStr ('"' :: t) = some ([], t) := by
  rw [scanStr.eq_def]
  simp

theorem scanStr_esc2 (e : Char) (r : List Char) (h : e ≠ 'u') :
    scanStr ('\\' :: e :: r) = (scanStr r).map (fun p => (unescChar e :: p.1, p.2)) := by
  rw [scanStr.eq_def]
  simp [h]

theorem scanStr_escu (x1 x2 x3 x4 : Char) (r : List Char) (a b c2 d : Nat)
    (e1 : hexVal x1 = some a) (e2 : hexVal x2 = some b)
    (e3 : hexVal x3 = some c2) (e4 : hexVal x4 = some d) :
    scanStr ('\\' :: 'u' :: x1 :: x2 :: x3 :: x4 :: r) =
      (scanStr r).map (fun p => (Char.ofNat (4096 * a + 256 * b + 16 * c2 + d) :: p.1, p.2)) := by
  rw [scanStr.eq_def]
  simp [e1, e2, e3, e4]

theorem scanStr_lit (c : Char) (r : List Char) (h1 : c ≠ '"') (h2 : c ≠ '\\') :
    scanStr (c :: r) = (scanStr r).map (fun p => (c :: p.1, p.2)) := by
  rw [scanStr.eq_def]
  simp [h1, h2]

theorem scanStr_escape (s t : List Char) : scanStr (escape s ++ '"' :: t) = some (s, t) := by
  induction s with
  | nil => simp [escape, scanStr_quote]
  | cons c s ih =>
    rw [escape, List.append_assoc]
    by_cases h1 : c = '\\'
    · subst h1
      show scanStr ('\\' :: '\\' :: (escape s ++ '"' :: t)) = some ('\\' :: s, t)
      rw [scanStr_esc2 '\\' (escape s ++ '"' :: t) (by decide), ih]
      rfl
    by_cases h2 : c = '"'
    · subst h2
      show scanStr ('\\' :: '"' :: (escape s ++ '"' :: t)) = some ('"' :: s, t)
      rw [scanStr_esc2 '"' (escape s ++ '"' :: t) (by decide), ih]
      rfl
    by_cases h3 : c = '\x08'
    · subst h3
      show scanStr ('\\' :: 'b' :: (escape s ++ '"' :: t)) = some ('\x08' :: s, t)
      rw [scanStr_esc2 'b' (escape s ++ '"' :: t) (by decide), ih]
      rfl
    by_cases h4 : c = '\x09'
    · subst h4
      show scanStr ('\\' :: 't' :: (escape s ++ '"' :: t)) = some ('\x09' :: s, t)
      rw [scanStr_esc2 't' (escape s ++ '"' :: t) (by decide), ih]
      rfl
    by_cases h5 : c = '\x0a'
    · subst h5
      show scanStr ('\\' :: 'n' :: (escape s ++ '"' :: t)) = some ('\x0a' :: s, t)
      rw [scanStr_esc2 'n' (escape s ++ '"' :: t) (by decide), ih]
      rfl
    by_cases h6 : c = '\x0c'
    · subst h6
      show scanStr ('\\' :: 'f' :: (escape s ++ '"' :: t)) = some ('\x0c' :: s, t)
      rw [scanStr_esc2 'f' (escape s ++ '"' :: t) (by decide), ih]
      rfl
    by_cases h7 : c = '\x0d'
    · subst h7
      show scanStr ('\\' :: 'r' :: (escape s ++ '"' :: t)) = some ('\x0d' :: s, t)
      rw [scanStr_esc2 'r' (escape s ++ '"' :: t) (by decide), ih]
      rfl
    by_cases h8 : c.toNat < 32
    · rw [escChar, if_neg h1, if_neg h2, if_neg h3, if_neg h4, if_neg h5, if_neg h6, if_neg h7,
        if_pos h8]
      have hd1 : hexVal (hexDigitChar (c.toNat / 16)) = some (c.toNat / 16) :=
        hexVal_hexDigitChar (by omega)
      have hd2 : hexVal (hexDigitChar (c.toNat % 16)) = some (c.toNat % 16) :=
        hexVal_hexDigitChar (Nat.mod_lt _ (by norm_num))
      simp only [List.cons_append, List.nil_append]
      rw [scanStr_escu _ _ _ _ _ 0 0 _ _ (by decide) (by decide) hd1 hd2, ih]
      simp [Nat.div_add_mod, Char.ofNat_toNat]
    · have he : escChar c = [c] := by
        rw [escChar, if_neg h1, if_neg h2, if_neg h3, if_neg h4, if_neg h5, if_neg h6, if_neg h7,
          if_neg h8]
      rw [he, List.singleton_append, scanStr_lit _ _ h2 h1, ih]
      rfl


theorem escape_quote_inj {s1 s2 t1 t2 : List Char}
    (h : escape s1 ++ '"' :: t1 = escape s2 ++ '"' :: t2) : s1 = s2 ∧ t1 = t2 := by
  have h1 := scanStr_escape s1 t1
  rw [h, scanStr_escape s2 t2] at h1
  simp at h1
  exact ⟨h1.1.symm, h1.2.symm⟩

theorem string_eq_of_data {a b : String} (h : a.data = b.data) : a = b :=
  congrArg String.mk h

theorem encVal_append_inj {v1 v2 : Option String} {t1 t2 : List Char}
    (h : encVal v1 ++ t1 = encVal v2 ++ t2) : v1 = v2 ∧ t1 = t2 := by
  rcases v1 with _ | s1 <;> rcases v2 with _ | s2
  · simp [encVal] at h
    exact ⟨rfl, h⟩
  · simp only [encVal, encStr, List.cons_append, List.append_assoc, List.singleton_append] at h
    exact absurd (List.head_eq_of_cons_eq h) (by decide)
  · simp only [encVal, encStr, List.cons_append, List.append_assoc, List.singleton_append] at h
    exact absurd (List.head_eq_of_cons_eq h) (by decide)
  · simp only [encVal, encStr, List.cons_append, List.append_assoc, List.singleton_append] at h
    injection h with _ h
    obtain ⟨hs, ht⟩ := escape_quote_inj h
    exact ⟨congrArg some (string_eq_of_data hs), ht⟩

theorem sort_stable_payload (i : OutageInfo) :
    List.insertionSort keyLe (stable_payload i) =
      [("address", some i.address), ("restore_dt", i.restore_dt),
       ("restore_raw", i.restore_raw), ("start_dt", i.start_dt)] := by
  have k1 : keyLe ("restore_dt", i.restore_dt) ("restore_raw", i.restore_raw) :=
    (String.le_iff_toList_le.mpr (by decide) : ("restore_dt" : String) ≤ "restore_raw")
  have k2 : ¬ keyLe ("start_dt", i.start_dt) ("restore_dt", i.restore_dt) :=
    (not_le.mpr (String.lt_iff_toList_lt.mpr (by decide)) : ¬ ("start_dt" : String) ≤ "restore_dt")
  have k3 : ¬ keyLe ("start_dt", i.start_dt) ("restore_raw", i.restore_raw) :=
    (not_le.mpr (String.lt_iff_toList_lt.mpr (by decide)) : ¬ ("start_dt" : String) ≤ "restore_raw")
  have k4 : keyLe ("address", some i.address) ("restore_dt", i.restore_dt) :=
    (String.le_iff_toList_le.mpr (by decide) : ("address" : String) ≤ "restore_dt")
  simp only [stable_payload, List.insertionSort, List.orderedInsert, if_pos k1, if_neg k2,
    if_neg k3, if_pos k4]

theorem serialize_payload_fields_inj (i1 i2 : OutageInfo)
    (h : serializeDict (stable_payload i1) = serializeDict (stable_payload i2)) :
    i1.address = i2.address ∧ i1.start_dt = i2.start_dt ∧
    i1.restore_dt = i2.restore_dt ∧ i1.restore_raw = i2.restore_raw := by
  rw [serializeDict, serializeDict, sort_stable_payload, sort_stable_payload] at h
  simp only [List.map_cons, List.map_nil, joinEntries, encEntry, List.cons_append,
    List.append_assoc, List.nil_append] at h
  injection h with _ h
  replace h := List.append_cancel_left h
  injection h with _ h
  injection h with _ h
  obtain ⟨ha, h⟩ := encVal_append_inj h
  injection h with _ h
  injection h with _ h
  replace h := List.append_cancel_left h
  injection h with _ h
  injection h with _ h
  obtain ⟨hrd, h⟩ := encVal_append_inj h
  injection h with _ h
  injection h with _ h
  replace h := List.append_cancel_left h
  injection h with _ h
  injection h with _ h
  obtain ⟨hrr, h⟩ := encVal_append_inj h
  injection h with _ h
  injection h with _ h
  replace h := List.append_cancel_left h
  injection h with _ h
  injection h with _ h
  obtain ⟨hsd, h⟩ := encVal_append_inj h
  exact ⟨Option.some.inj ha, hsd, hrd, hrr⟩


theorem char_toNat_lt (c : Char) : c.toNat < 1114112 := by
  rcases c.valid with h | ⟨_, h2⟩
  · exact Nat.lt_trans h (by norm_num)
  · exact h2

theorem char_toNat_inj {c d : Char} (h : c.toNat = d.toNat) : c = d :=
  Char.ext (UInt32.ext h)

/-- C7 counterexample: the claim quantifies over all records, but the
fingerprint maps the infinitely many distinct payloads into the finite set
of 64-character digests, so two records with the same address and
different start times share a fingerprint.  (The serialized inputs always
differ; only the SHA-256 digests can coincide.) -/
theorem C7_counterexample :
    ¬ (∀ r1 r2 : OutageInfo, r1.address = r2.address →
        (r1.start_dt ≠ r2.start_dt ∨ r1.restore_dt ≠ r2.restore_dt ∨
          r1.restore_raw ≠ r2.restore_raw) →
        fingerprint (stable_payload r1) ≠ fingerprint (stable_payload r2)) := by
  intro hclaim
  have hlen : ∀ n : Nat, (fingerprint (stable_payload (recN n))).data.length = 64 :=
    fun n => fingerprint_length _
  let G : Nat → (Fin 64 → Fin 1114112) := fun n i =>
    ⟨((fingerprint (stable_payload (recN n))).data.get
        ⟨i.val, by rw [hlen n]; exact i.isLt⟩).toNat,
     char_toNat_lt _⟩
  obtain ⟨n, m, hnm, heq⟩ := Finite.exists_ne_map_eq_of_infinite G
  have hdata : (fingerprint (stable_payload (recN n))).data =
      (fingerprint (stable_payload (recN m))).data := by
    apply List.ext_get (by rw [hlen n, hlen m])
    intro i h1 h2
    have hi : i < 64 := by rw [hlen n] at h1; exact h1
    have h3 := congrArg Fin.val (congrFun heq ⟨i, hi⟩)
    exact char_toNat_inj h3
  have hfp : fingerprint (stable_payload (recN n)) = fingerprint (stable_payload (recN m)) :=
    string_eq_of_data hdata
  have hstart : (recN n).start_dt ≠ (recN m).start_dt := by
    simp only [recN]
    intro h
    have h3 := congrArg String.data (Option.some.inj h)
    have h4 := congrArg List.length h3
    simp only [padA, List.length_replicate] at h4
    exact hnm h4
  exact hclaim (recN n) (recN m) rfl (Or.inl hstart) hfp

/-- C7 amended: two records with the same address differing in start_dt,
restore_dt or restore_raw always have different canonical serializations —
the inputs fed to the hash differ, so the fingerprints differ except for a
SHA-256 collision. -/
theorem C7_serialized_inputs_differ (r1 r2 : OutageInfo)
    (ha : r1.address = r2.address)
    (hd : r1.start_dt ≠ r2.start_dt ∨ r1.restore_dt ≠ r2.restore_dt ∨
      r1.restore_raw ≠ r2.restore_raw) :
    serializeDict (stable_payload r1) ≠ serializeDict (stable_payload r2) := by
  intro h
  obtain ⟨_, h2, h3, h4⟩ := serialize_payload_fields_inj r1 r2 h
  rcases hd with h5 | h5 | h5 <;> exact h5 (by assumption)

/-- C7 witness: records differing only in start time serialize
differently. -/
theorem C7_serialized_inputs_differ_witness :
    serializeDict (stable_payload ({ address := "a", start_dt := some "1" } : OutageInfo)) ≠
    serializeDict (stable_payload ({ address := "a", start_dt := some "2" } : OutageInfo)) :=
  C7_serialized_inputs_differ _ _ rfl (Or.inl (by decide))

end Dtek
